import Mathlib

/-!
Verification of the agent routing core of banking_agents.py
(src/python/src/app/banking_agents.py).

The embedding models the routing functions of that file:
the coordinator node (call_coordinator_agent), the three specialist
nodes (call_customer_support_agent, call_sales_agent,
call_transactions_agent), the conditional-edge resolver
(get_active_agent) and the MCP bootstrap (get_persistent_mcp_client).

External collaborators are passed in as parameters:
- the Cosmos DB point read (chat_container.read_item) is an
  `Except Unit SessionRecord` value: `Except.error ()` is the raised
  exception, `Except.ok r` the record;
- an agent invocation (agent.ainvoke) is a function from the input
  message list to the response message list;
- json.loads of a message content string is the `contentJson` field of
  a message: `none` when parsing raises, `some obj` when the content
  parses to a JSON object (keys to string values).

Database writes (update_chat_container, patch_active_agent) and model
invocations are recorded as an effect trace, in program order.
-/

/-- String constants used by the source file. -/
def unknownAgent : String := "unknown"

def coordinatorName : String := "coordinator_agent"

def customerSupportName : String := "customer_support_agent"

def salesName : String := "sales_agent"

def transactionsName : String := "transactions_agent"

def humanNode : String := "human"

def cliTest : String := "cli-test"

def gotoKey : String := "goto"

def transferMarker : String := "TRANSFER_REQUEST:"

def mcpBothFailedMsg : String := "Both shared and lightweight MCP initialization failed"

/-- Python truthiness of content.strip(): the string consists of
whitespace only. -/
def contentBlank (s : String) : Bool := s.data.all Char.isWhitespace

/-- Python str.startswith, over the character sequences. -/
def strStarts (s p : String) : Bool := decide (s.data.take p.data.length = p.data)

/-- The characters after the first colon, `none` when there is no colon. -/
def charsAfterColon : List Char → Option (List Char)
  | [] => none
  | c :: rest => if c = ':' then some rest else charsAfterColon rest

/-- Message roles: the tagged variants of langchain messages.
Role.tool corresponds to ToolMessage, Role.system to SystemMessage. -/
inductive Role where
  | user
  | assistant
  | tool
  | system
deriving DecidableEq

/-- A message: role tag, raw string content, and the result of
json.loads on the content (`none` = the parse raises, `some obj` = the
content is a JSON object, modelled as an association list whose values
are the strings relevant to routing). -/
structure Message where
  role : Role
  content : String
  contentJson : Option (List (String × String))
deriving DecidableEq

/-- dict.get on a parsed JSON object: first match in the association list. -/
def jsonGet (obj : List (String × String)) (key : String) : Option String :=
  match obj with
  | [] => none
  | (k, v) :: rest => if k = key then some v else jsonGet rest key

/-- Python content.split(":", 1)[1]: everything after the first colon. -/
def afterFirstColon (s : String) : String :=
  match charsAfterColon s.data with
  | some rest => String.mk rest
  | none => ""

/-- The loop of call_coordinator_agent lines 200-218: iterate over
response["messages"] in given (oldest-first) order; for each message
with non-whitespace string content, try json.loads and a truthy "goto"
field; on parse failure fall back to the "TRANSFER_REQUEST:" legacy
form; break on the first match. -/
def findTransferTarget : List Message → Option String
  | [] => none
  | m :: rest =>
    if contentBlank m.content then findTransferTarget rest
    else
      match m.contentJson with
      | some obj =>
        match jsonGet obj gotoKey with
        | some v => if v = "" then findTransferTarget rest else some v
        | none => findTransferTarget rest
      | none =>
        if strStarts m.content transferMarker then some (afterFirstColon m.content)
        else findTransferTarget rest

/-- The directive one iteration of the call_coordinator_agent loop
extracts from a single message, `none` when the iteration does not
break. -/
def messageDirective (m : Message) : Option String :=
  if contentBlank m.content then none
  else
    match m.contentJson with
    | some obj =>
      match jsonGet obj gotoKey with
      | some v => if v = "" then none else some v
      | none => none
    | none =>
      if strStarts m.content transferMarker then some (afterFirstColon m.content)
      else none

/-- The loop of get_active_agent lines 305-314: iterate over the given
list (the caller passes the reversed message list); consider only
ToolMessage entries; json.loads the content and break on a truthy
"goto"; parse failures are printed and skipped. -/
def scanToolGoto : List Message → Option String
  | [] => none
  | m :: rest =>
    if m.role = Role.tool then
      match m.contentJson with
      | some obj =>
        match jsonGet obj gotoKey with
        | some v => if v = "" then scanToolGoto rest else some v
        | none => scanToolGoto rest
      | none => scanToolGoto rest
    else scanToolGoto rest

/-- The directive one iteration of the get_active_agent loop extracts
from a single message. -/
def toolDirective (m : Message) : Option String :=
  if m.role = Role.tool then
    match m.contentJson with
    | some obj =>
      match jsonGet obj gotoKey with
      | some v => if v = "" then none else some v
      | none => none
    | none => none
  else none

/-- The Session Store row, reduced to the field the router reads:
activeAgent is `none` when the document lacks the field (dict.get then
returns the default "unknown"). -/
structure SessionRecord where
  activeAgent : Option String
deriving DecidableEq

/-- Lines 158-163: the guarded point read. On exception the variable
activeAgent becomes Python None (here: `none`); on success it becomes
doc.get("activeAgent", "unknown"). -/
def resolveActiveAgent (lookup : Except Unit SessionRecord) : Option String :=
  match lookup with
  | Except.error _ => none
  | Except.ok r => some (r.activeAgent.getD unknownAgent)

/-- get_active_agent lines 296-330: scan the reversed message list for
a ToolMessage goto directive; if none found, fall back to the Cosmos DB
point read, mapping a read exception to "unknown". -/
def get_active_agent (msgs : List Message) (db : Except Unit SessionRecord) : String :=
  match scanToolGoto msgs.reverse with
  | some a => a
  | none =>
    match db with
    | Except.ok r => r.activeAgent.getD unknownAgent
    | Except.error _ => unknownAgent

/-- A langgraph Command: the state update (its message list) and the
goto target node. -/
structure Command where
  update : List Message
  goto : String
deriving DecidableEq

/-- Side effects of a node, in program order. -/
inductive Effect where
  | updateChatContainer (id tenantId userId activeAgent : String)
  | patchActiveAgent (tenantId userId threadId agent : String)
  | invokeModel (agent : String)
deriving DecidableEq

/-- call_coordinator_agent lines 151-237. `interactive` is the
local_interactive_mode global; `lookup` the outcome of the Cosmos point
read; `coordinator` the coordinator_agent.ainvoke collaborator. Returns
the effect trace and the Command. -/
def call_coordinator_agent (interactive : Bool) (threadId : String)
    (lookup : Except Unit SessionRecord)
    (coordinator : List Message → List Message)
    (state : List Message) : List Effect × Command :=
  let activeAgent := resolveActiveAgent lookup
  let initEffects :=
    if activeAgent.isNone && interactive then
      [Effect.updateChatContainer threadId cliTest cliTest unknownAgent]
    else []
  if activeAgent ∉ [none, some unknownAgent, some coordinatorName] then
    (initEffects, ⟨state, activeAgent.getD unknownAgent⟩)
  else
    let response := coordinator state
    match findTransferTarget response with
    | some target => (initEffects ++ [Effect.invokeModel coordinatorName], ⟨response, target⟩)
    | none => (initEffects ++ [Effect.invokeModel coordinatorName], ⟨response, humanNode⟩)

/-- call_customer_support_agent lines 241-246. -/
def call_customer_support_agent (interactive : Bool) (threadId : String)
    (agent : List Message → List Message) (state : List Message) :
    List Effect × Command :=
  let patchEffects :=
    if interactive then
      [Effect.patchActiveAgent cliTest cliTest threadId customerSupportName]
    else []
  let response := agent state
  (patchEffects ++ [Effect.invokeModel customerSupportName], ⟨response, humanNode⟩)

/-- call_sales_agent lines 249-266 (timing prints elided). -/
def call_sales_agent (interactive : Bool) (threadId : String)
    (agent : List Message → List Message) (state : List Message) :
    List Effect × Command :=
  let patchEffects :=
    if interactive then
      [Effect.patchActiveAgent cliTest cliTest threadId salesName]
    else []
  let response := agent state
  (patchEffects ++ [Effect.invokeModel salesName], ⟨response, humanNode⟩)

/-- The ephemeral system message appended by call_transactions_agent
lines 276-279. -/
def txSystemMessage (tenantId userId threadId : String) : Message :=
  { role := Role.system,
    content := "When calling bank_transfer tool, be sure to pass in tenantId=\x27"
      ++ tenantId ++ "\x27, userId=\x27" ++ userId ++ "\x27, thread_id=\x27"
      ++ threadId ++ "\x27",
    contentJson := none }

/-- call_transactions_agent lines 269-288. The middle component of the
result is the mutated input state (state["messages"] after the in-place
append); the Command carries the response with SystemMessage instances
(role system) filtered out. -/
def call_transactions_agent (interactive : Bool) (tenantId userId threadId : String)
    (agent : List Message → List Message) (state : List Message) :
    List Effect × List Message × Command :=
  let patchEffects :=
    if interactive then
      [Effect.patchActiveAgent cliTest cliTest threadId transactionsName]
    else []
  let mutatedState := state ++ [txSystemMessage tenantId userId threadId]
  let response := agent mutatedState
  let filtered := response.filter (fun m => m.role != Role.system)
  (patchEffects ++ [Effect.invokeModel transactionsName], mutatedState, ⟨filtered, humanNode⟩)

/-- The MCP client variants: the shared (primary) client wrapper and
the lightweight fallback. -/
inductive McpClient where
  | shared
  | lightweight
deriving DecidableEq

/-- get_persistent_mcp_client lines 66-128. `cached` is the memoized
_persistent_mcp_client global; `primary` the outcome of the shared MCP
setup (the first try block), `fallback` the outcome of the lightweight
MCP setup (the inner try block). The final raise carries the message of
line 126. -/
def get_persistent_mcp_client (cached : Option McpClient)
    (primary : Except Unit McpClient) (fallback : Except Unit McpClient) :
    Except String McpClient :=
  match cached with
  | some c => Except.ok c
  | none =>
    match primary with
    | Except.ok c => Except.ok c
    | Except.error _ =>
      match fallback with
      | Except.ok c => Except.ok c
      | Except.error _ => Except.error mcpBothFailedMsg

/-- The extraction algorithm as the spec describes it: newest-first
scan, tool-result messages only, structured goto first, legacy
TRANSFER_REQUEST fallback when the structured parse fails. Written from
the spec wording, for comparison with findTransferTarget. -/
def claimMessageDirective (m : Message) : Option String :=
  if m.role = Role.tool then
    match m.contentJson with
    | some obj =>
      match jsonGet obj gotoKey with
      | some v => if v = "" then none else some v
      | none => none
    | none =>
      if strStarts m.content transferMarker then some (afterFirstColon m.content)
      else none
  else none

/-- Newest-first first-match extraction per the spec wording. -/
def findTransferTargetClaim (msgs : List Message) : Option String :=
  msgs.reverse.findSome? claimMessageDirective

/-- Concrete inputs used by witnesses and counterexamples. -/
def tOne : String := "t1"

def gotoSalesJson : List (String × String) := [(gotoKey, salesName)]

def gotoTransactionsJson : List (String × String) := [(gotoKey, transactionsName)]

def olderToolMsg : Message :=
  { role := Role.tool,
    content := "\x7b\"goto\": \"sales_agent\"\x7d",
    contentJson := some gotoSalesJson }

def newerToolMsg : Message :=
  { role := Role.tool,
    content := "\x7b\"goto\": \"transactions_agent\"\x7d",
    contentJson := some gotoTransactionsJson }

def orderProbeMsgs : List Message := [olderToolMsg, newerToolMsg]

def assistantGotoMsg : Message :=
  { role := Role.assistant,
    content := "\x7b\"goto\": \"sales_agent\"\x7d",
    contentJson := some gotoSalesJson }

def plainToolMsg : Message :=
  { role := Role.tool, content := "hello", contentJson := none }

/-- Legacy-form message used by witnesses. -/
def legacyToolMsg : Message :=
  { role := Role.tool, content := "TRANSFER_REQUEST:sales_agent", contentJson := none }

/-- C1: if the persisted record resolves to an activeAgent outside
{None, "unknown", "coordinator_agent"}, the router returns a Command
going straight to that agent with an empty effect trace (no coordinator
invocation); otherwise the coordinator model is invoked. -/
theorem claim1_skip_routing (interactive : Bool) (threadId : String)
    (lookup : Except Unit SessionRecord)
    (coordinator : List Message → List Message) (state : List Message) :
    (∀ a : String, resolveActiveAgent lookup = some a → a ≠ unknownAgent →
        a ≠ coordinatorName →
        call_coordinator_agent interactive threadId lookup coordinator state
          = ([], ⟨state, a⟩))
    ∧ ((resolveActiveAgent lookup = none ∨ resolveActiveAgent lookup = some unknownAgent
          ∨ resolveActiveAgent lookup = some coordinatorName) →
        Effect.invokeModel coordinatorName
          ∈ (call_coordinator_agent interactive threadId lookup coordinator state).1) := by
  constructor
  · intro a ha h1 h2
    simp [call_coordinator_agent, ha, h1, h2]
  · intro h
    have hmem : resolveActiveAgent lookup ∈ [none, some unknownAgent, some coordinatorName] := by
      rcases h with h | h | h <;> simp [h]
    simp only [call_coordinator_agent]
    rw [if_neg (not_not_intro hmem)]
    cases hf : findTransferTarget (coordinator state) <;> simp [hf]

/-- C1 witness. -/
theorem claim1_skip_routing_witness :
    call_coordinator_agent false tOne (Except.ok ⟨some salesName⟩) (fun m => m) []
      = ([], ⟨[], salesName⟩)
    ∧ Effect.invokeModel coordinatorName
        ∈ (call_coordinator_agent false tOne (Except.error ()) (fun m => m) []).1 := by
  constructor
  · exact (claim1_skip_routing false tOne (Except.ok ⟨some salesName⟩) (fun m => m) []).1
      salesName rfl (by decide) (by decide)
  · exact (claim1_skip_routing false tOne (Except.error ()) (fun m => m) []).2 (Or.inl rfl)

/-- C2 counterexample: the coordinator extraction loop scans messages
oldest-first and also reads non-tool messages, unlike the claimed
newest-first tool-only scan. With an older goto=sales_agent tool result
and a newer goto=transactions_agent tool result, the code picks
sales_agent while the claimed algorithm picks transactions_agent; a
lone assistant message with a goto payload yields a target under the
code but none under the claimed algorithm. -/
theorem claim2_scan_order_counterexample :
    findTransferTarget orderProbeMsgs = some salesName
    ∧ findTransferTargetClaim orderProbeMsgs = some transactionsName
    ∧ findTransferTarget [assistantGotoMsg] = some salesName
    ∧ findTransferTargetClaim [assistantGotoMsg] = none := by
  refine ⟨by decide, by decide, by decide, by decide⟩

/-- C2 amended: in call_coordinator_agent the transfer target is the
first match scanning oldest-first over all messages with
non-whitespace string content, structured goto parse attempted before
the legacy TRANSFER_REQUEST fallback within each message; in
get_active_agent the scan is first-match over the list it is given
(the reversed, newest-first message list), tool messages only,
structured parse only. -/
theorem claim2_forward_scan (msgs : List Message) :
    findTransferTarget msgs = msgs.findSome? messageDirective
    ∧ scanToolGoto msgs = msgs.findSome? toolDirective := by
  induction msgs with
  | nil => exact ⟨rfl, rfl⟩
  | cons m rest ih =>
    refine ⟨?_, ?_⟩
    · by_cases hb : contentBlank m.content
      · simp [findTransferTarget, messageDirective, List.findSome?_cons, hb, ih.1]
      · cases hj : m.contentJson with
        | none =>
          by_cases hs : strStarts m.content transferMarker
          · simp [findTransferTarget, messageDirective, List.findSome?_cons, hb, hj, hs]
          · simp [findTransferTarget, messageDirective, List.findSome?_cons, hb, hj, hs, ih.1]
        | some obj =>
          cases hg : jsonGet obj gotoKey with
          | none =>
            simp [findTransferTarget, messageDirective, List.findSome?_cons, hb, hj, hg, ih.1]
          | some v =>
            by_cases hv : v = ""
            · simp [findTransferTarget, messageDirective, List.findSome?_cons, hb, hj, hg, hv,
                ih.1]
            · simp [findTransferTarget, messageDirective, List.findSome?_cons, hb, hj, hg, hv]
    · by_cases hr : m.role = Role.tool
      · cases hj : m.contentJson with
        | none => simp [scanToolGoto, toolDirective, List.findSome?_cons, hr, hj, ih.2]
        | some obj =>
          cases hg : jsonGet obj gotoKey with
          | none => simp [scanToolGoto, toolDirective, List.findSome?_cons, hr, hj, hg, ih.2]
          | some v =>
            by_cases hv : v = ""
            · simp [scanToolGoto, toolDirective, List.findSome?_cons, hr, hj, hg, hv, ih.2]
            · simp [scanToolGoto, toolDirective, List.findSome?_cons, hr, hj, hg, hv]
      · simp [scanToolGoto, toolDirective, List.findSome?_cons, hr, ih.2]

/-- C3: every specialist node returns a Command whose goto is the
human-wait node, for every input. -/
theorem claim3_always_human (interactive : Bool) (threadId tenantId userId : String)
    (agC agS agT : List Message → List Message) (state : List Message) :
    (call_customer_support_agent interactive threadId agC state).2.goto = humanNode
    ∧ (call_sales_agent interactive threadId agS state).2.goto = humanNode
    ∧ (call_transactions_agent interactive tenantId userId threadId agT state).2.2.goto
        = humanNode :=
  ⟨rfl, rfl, rfl⟩

/-- C4: the message list in the Command returned by the transactions
node contains no system-role message, whatever the agent response. -/
theorem claim4_no_system_messages (interactive : Bool) (tenantId userId threadId : String)
    (agent : List Message → List Message) (state : List Message) :
    ((call_transactions_agent interactive tenantId userId threadId agent state).2.2.update).all
      (fun m => m.role != Role.system) = true := by
  simp only [call_transactions_agent, List.all_eq_true]
  intro m hm
  exact (List.mem_filter.mp hm).2

/-- C5: a raised Session Store lookup is recovered locally: the
coordinator branch is taken (the coordinator model is invoked), and
get_active_agent maps a raised DB fallback read to "unknown". -/
theorem claim5_lookup_failure_recovered (interactive : Bool) (threadId : String)
    (coordinator : List Message → List Message) (state : List Message)
    (msgs : List Message) :
    Effect.invokeModel coordinatorName
      ∈ (call_coordinator_agent interactive threadId (Except.error ()) coordinator state).1
    ∧ (scanToolGoto msgs.reverse = none →
        get_active_agent msgs (Except.error ()) = unknownAgent) := by
  constructor
  · exact (claim1_skip_routing interactive threadId (Except.error ()) coordinator state).2
      (Or.inl rfl)
  · intro h
    simp [get_active_agent, h]

/-- C5 witness. -/
theorem claim5_lookup_failure_recovered_witness :
    Effect.invokeModel coordinatorName
      ∈ (call_coordinator_agent false tOne (Except.error ()) (fun m => m) []).1
    ∧ get_active_agent [] (Except.error ()) = unknownAgent :=
  ⟨(claim5_lookup_failure_recovered false tOne (fun m => m) [] []).1,
   (claim5_lookup_failure_recovered false tOne (fun m => m) [] []).2 rfl⟩

/-- C6: a message whose content fails the structured parse and does not
carry the legacy marker, or whose parsed object has no goto field, is
skipped by both scans and the scan continues with the remaining
messages; no error is produced. -/
theorem claim6_parse_failure_recovered (m : Message) (rest : List Message) :
    ((m.contentJson = none → strStarts m.content transferMarker = false →
        findTransferTarget (m :: rest) = findTransferTarget rest
        ∧ scanToolGoto (m :: rest) = scanToolGoto rest))
    ∧ (∀ obj, m.contentJson = some obj → jsonGet obj gotoKey = none →
        findTransferTarget (m :: rest) = findTransferTarget rest
        ∧ scanToolGoto (m :: rest) = scanToolGoto rest) := by
  constructor
  · intro hj hs
    constructor
    · by_cases hb : contentBlank m.content <;>
        simp [findTransferTarget, hb, hj, hs]
    · by_cases hr : m.role = Role.tool <;>
        simp [scanToolGoto, hr, hj]
  · intro obj hj hg
    constructor
    · by_cases hb : contentBlank m.content <;>
        simp [findTransferTarget, hb, hj, hg]
    · by_cases hr : m.role = Role.tool <;>
        simp [scanToolGoto, hr, hj, hg]

/-- C6 witness. -/
theorem claim6_parse_failure_recovered_witness :
    findTransferTarget [plainToolMsg, legacyToolMsg] = findTransferTarget [legacyToolMsg]
    ∧ scanToolGoto [plainToolMsg, legacyToolMsg] = scanToolGoto [legacyToolMsg] :=
  (claim6_parse_failure_recovered plainToolMsg [legacyToolMsg]).1 rfl (by decide)

/-- C7: with no cached client, bootstrap raises exactly when both the
shared setup and the lightweight fallback fail; a successful primary is
used as-is, and a successful fallback is used when the primary fails. -/
theorem claim7_bootstrap_fallback (primary fallback : Except Unit McpClient) :
    (get_persistent_mcp_client none primary fallback = Except.error mcpBothFailedMsg
        ↔ (primary = Except.error () ∧ fallback = Except.error ()))
    ∧ (∀ c, primary = Except.ok c →
        get_persistent_mcp_client none primary fallback = Except.ok c)
    ∧ (∀ c, primary = Except.error () → fallback = Except.ok c →
        get_persistent_mcp_client none primary fallback = Except.ok c) := by
  cases primary with
  | ok c => simp [get_persistent_mcp_client]
  | error e =>
    cases fallback with
    | ok c => simp [get_persistent_mcp_client]
    | error e2 => simp [get_persistent_mcp_client]

/-- C7 witness. -/
theorem claim7_bootstrap_fallback_witness :
    get_persistent_mcp_client none (Except.error ()) (Except.ok McpClient.lightweight)
      = Except.ok McpClient.lightweight
    ∧ get_persistent_mcp_client none (Except.error ()) (Except.error ())
        = Except.error mcpBothFailedMsg :=
  ⟨(claim7_bootstrap_fallback (Except.error ()) (Except.ok McpClient.lightweight)).2.2
      McpClient.lightweight rfl rfl,
   (claim7_bootstrap_fallback (Except.error ()) (Except.error ())).1.mpr ⟨rfl, rfl⟩⟩

/-- C8 counterexample: with local_interactive_mode unset, the customer
support node performs no patchActiveAgent write at all; its trace is
just the model invocation. -/
theorem claim8_no_write_counterexample :
    (call_customer_support_agent false tOne (fun m => m) []).1
      = [Effect.invokeModel customerSupportName] := rfl

/-- C8 amended: a specialist node writes its own identity via
patchActiveAgent (tenant and user fixed to "cli-test") before its model
invocation if and only if local_interactive_mode is set; with the flag
unset no Session Store write occurs. -/
theorem claim8_patch_iff_interactive (interactive : Bool) (threadId tenantId userId : String)
    (agC agS agT : List Message → List Message) (state : List Message) :
    ((Effect.patchActiveAgent cliTest cliTest threadId customerSupportName
        ∈ (call_customer_support_agent interactive threadId agC state).1 ↔ interactive = true)
      ∧ (interactive = true →
          (call_customer_support_agent interactive threadId agC state).1
            = [Effect.patchActiveAgent cliTest cliTest threadId customerSupportName,
               Effect.invokeModel customerSupportName]))
    ∧ ((Effect.patchActiveAgent cliTest cliTest threadId salesName
        ∈ (call_sales_agent interactive threadId agS state).1 ↔ interactive = true)
      ∧ (interactive = true →
          (call_sales_agent interactive threadId agS state).1
            = [Effect.patchActiveAgent cliTest cliTest threadId salesName,
               Effect.invokeModel salesName]))
    ∧ ((Effect.patchActiveAgent cliTest cliTest threadId transactionsName
        ∈ (call_transactions_agent interactive tenantId userId threadId agT state).1
          ↔ interactive = true)
      ∧ (interactive = true →
          (call_transactions_agent interactive tenantId userId threadId agT state).1
            = [Effect.patchActiveAgent cliTest cliTest threadId transactionsName,
               Effect.invokeModel transactionsName])) := by
  cases interactive <;>
    simp [call_customer_support_agent, call_sales_agent, call_transactions_agent]

/-- C8 witness. -/
theorem claim8_patch_iff_interactive_witness :
    (call_customer_support_agent true tOne (fun m => m) []).1
      = [Effect.patchActiveAgent cliTest cliTest tOne customerSupportName,
         Effect.invokeModel customerSupportName] :=
  (claim8_patch_iff_interactive true tOne cliTest cliTest (fun m => m) (fun m => m)
    (fun m => m) []).1.2 rfl

/-- C9 counterexample: with local_interactive_mode unset and the
Session Store read raising (no record), the coordinator node performs
no update_chat_container write; its trace is just the coordinator model
invocation. -/
theorem claim9_no_init_counterexample :
    (call_coordinator_agent false tOne (Except.error ()) (fun m => m) []).1
      = [Effect.invokeModel coordinatorName] := rfl

/-- C9 amended: the router writes the default session record (tenant
and user "cli-test", activeAgent "unknown") exactly when the Session
Store read raised (no record resolved) and local_interactive_mode is
set. -/
theorem claim9_init_iff_interactive (interactive : Bool) (threadId : String)
    (lookup : Except Unit SessionRecord)
    (coordinator : List Message → List Message) (state : List Message) :
    (Effect.updateChatContainer threadId cliTest cliTest unknownAgent
        ∈ (call_coordinator_agent interactive threadId lookup coordinator state).1)
      ↔ (resolveActiveAgent lookup = none ∧ interactive = true) := by
  cases lookup with
  | error e =>
    cases interactive <;>
      simp only [call_coordinator_agent, resolveActiveAgent] <;>
      cases hf : findTransferTarget (coordinator state) <;>
      simp [hf]
  | ok r =>
    simp only [call_coordinator_agent, resolveActiveAgent]
    split
    · simp
    · cases hf : findTransferTarget (coordinator state) <;> simp [hf]

/-- C9 witness. -/
theorem claim9_init_iff_interactive_witness :
    Effect.updateChatContainer tOne cliTest cliTest unknownAgent
      ∈ (call_coordinator_agent true tOne (Except.error ()) (fun m => m) []).1 :=
  (claim9_init_iff_interactive true tOne (Except.error ()) (fun m => m) []).mpr ⟨rfl, rfl⟩

/-- C10: the transactions node mutates the caller state in place: the
state list after the call is the input list with the ephemeral system
message appended, so the injected system-role message is still present
in the caller state even though it is filtered from the Command. -/
theorem claim10_state_mutation (interactive : Bool) (tenantId userId threadId : String)
    (agent : List Message → List Message) (state : List Message) :
    (call_transactions_agent interactive tenantId userId threadId agent state).2.1
      = state ++ [txSystemMessage tenantId userId threadId]
    ∧ (txSystemMessage tenantId userId threadId).role = Role.system
    ∧ txSystemMessage tenantId userId threadId
        ∈ (call_transactions_agent interactive tenantId userId threadId agent state).2.1 := by
  refine ⟨rfl, rfl, ?_⟩
  simp [call_transactions_agent]
